import Mathlib

/- Verification of the gitcat interactive commit workflow (src/main.go).

   The source is a single Go file built around a bubbletea TUI model.  The
   embedding below renders the mutable `model` record as a Lean structure,
   the `Update` method as a pure step function, and every external side
   effect (git/gh subprocess results, the generative API) as data supplied
   by an `Env` record.  Calls that `Update` performs synchronously are
   recorded in an explicit trace so that theorems can speak about which
   external calls were issued and with which arguments. -/

set_option maxHeartbeats 1000000
set_option maxRecDepth 100000

/-! ## String helpers mirroring the Go standard library calls used by the source -/

/-- Go strings.HasPrefix, on the character lists underlying the strings. -/
def headMatches : List Char → List Char → Bool
  | [], _ => true
  | _ :: _, [] => false
  | a :: as, b :: bs => a == b && headMatches as bs

/-- Helper for Go strings.Contains: does `pat` occur in the list? -/
def containsSubList (pat : List Char) : List Char → Bool
  | [] => headMatches pat []
  | b :: bs => headMatches pat (b :: bs) || containsSubList pat bs

/-- Go strings.Contains(s, pat). -/
def strContains (s pat : String) : Bool := containsSubList pat.data s.data

/-- Go strings.HasPrefix(s, pre). -/
def hasPrefixStr (s pre : String) : Bool := headMatches pre.data s.data

/-- Whitespace in the sense of Go strings.TrimSpace, restricted to the ASCII
whitespace that can occur in the subprocess output the source trims. -/
def isSpaceChar (c : Char) : Bool := c == ' ' || c == '\t' || c == '\n' || c == '\r'

/-- Go strings.TrimSpace: drop leading and trailing whitespace. -/
def trimSpace (s : String) : String :=
  ⟨((s.data.dropWhile isSpaceChar).reverse.dropWhile isSpaceChar).reverse⟩

/-- Go strings.Split(s, "\n"), specialised to the newline separator used by
the source: the list of segments between newline characters. -/
def splitNl : List Char → List (List Char)
  | [] => [[]]
  | c :: cs =>
    if c = '\n' then [] :: splitNl cs
    else
      match splitNl cs with
      | h :: t => (c :: h) :: t
      | [] => [[c]]

/-- First-occurrence split: returns the parts before and after the first
occurrence of `sep`, or `none` when `sep` does not occur.  Backs the model
of Go strings.SplitN(s, sep, 2) for the non-empty separator the source uses. -/
def splitFirst (sep : List Char) : List Char → Option (List Char × List Char)
  | [] => if headMatches sep [] then some ([], []) else none
  | c :: cs =>
    if headMatches sep (c :: cs) then some ([], (c :: cs).drop sep.length)
    else
      match splitFirst sep cs with
      | some (pre, post) => some (c :: pre, post)
      | none => none

/-- Go strings.SplitN(s, sep, 2) for a non-empty separator: at most two parts. -/
def splitN2 (s sep : String) : List String :=
  match splitFirst sep.data s.data with
  | some (a, b) => [⟨a⟩, ⟨b⟩]
  | none => [s]

/-! ## Configuration model (src/main.go: Config, flags, getEffectiveConfig) -/

/-- Config mirrors the JSON configuration record. -/
structure Config where
  provider : String
  model : String
  commitModel : String
  prModel : String
  ollamaURL : String
deriving DecidableEq, Repr

/-- Config.GetCommitModel: the commit-specific model, falling back to Model. -/
def Config.getCommitModel (c : Config) : String :=
  if c.commitModel ≠ "" then c.commitModel else c.model

/-- Config.GetPRModel: the PR-specific model, falling back to Model. -/
def Config.getPRModel (c : Config) : String :=
  if c.prModel ≠ "" then c.prModel else c.model

/-- The CLI flag values (empty string = flag not given), mirroring the
package-level flag variables. -/
structure Flags where
  modelFlag : String
  mFlag : String
  commitModelFlag : String
  prModelFlag : String
  providerFlag : String
  pFlag : String
  ollamaURLFlag : String
deriving DecidableEq, Repr

/-- getEffectiveConfig: the stored config with CLI flag overrides applied. -/
def getEffectiveConfig (fl : Flags) (appConfig : Config) : Config :=
  let provider := if fl.pFlag ≠ "" then fl.pFlag else fl.providerFlag
  let cfg1 := if provider ≠ "" then {appConfig with provider := provider} else appConfig
  let mdl := if fl.mFlag ≠ "" then fl.mFlag else fl.modelFlag
  let cfg2 := if mdl ≠ "" then {cfg1 with model := mdl} else cfg1
  let cfg3 := if fl.commitModelFlag ≠ "" then {cfg2 with commitModel := fl.commitModelFlag} else cfg2
  let cfg4 := if fl.prModelFlag ≠ "" then {cfg3 with prModel := fl.prModelFlag} else cfg3
  if fl.ollamaURLFlag ≠ "" then {cfg4 with ollamaURL := fl.ollamaURLFlag} else cfg4

/-- The model name generateCommitMsg passes to the provider
(src/main.go lines 914-916: effective config, then GetCommitModel). -/
def commitGenerationModel (fl : Flags) (cfg : Config) : String :=
  (getEffectiveConfig fl cfg).getCommitModel

/-! ## Small git helpers (pure parts of the subprocess wrappers) -/

/-- diffLineSizeLimit: skip AI generation for diffs larger than this. -/
def diffLineSizeLimit : Nat := 1000

/-- isDiffTooLarge: len(strings.Split(diff, "\n")) > diffLineSizeLimit. -/
def isDiffTooLarge (diff : String) : Bool :=
  (splitNl diff.data).length > diffLineSizeLimit

/-- countStagedFiles applied to the result of `git diff --staged --name-only`
(error value means the subprocess failed, which degrades to zero). -/
def countStagedFiles (res : Except String String) : Nat :=
  match res with
  | .error _ => 0
  | .ok out =>
    match splitNl (trimSpace out).data with
    | [[]] => 0
    | ls => ls.length

/-- The characters git refuses in branch names, as listed by the source. -/
def invalidChars : List String := ["..", "~", "^", ":", "?", "*", "[", "\\", " "]

/-- validateBranchName: `none` means the name is acceptable, `some msg` is the
error message the source returns. -/
def validateBranchName (name : String) : Option String :=
  if name = "" then some "branch name cannot be empty"
  else if hasPrefixStr name "-" then some "branch name cannot start with a hyphen"
  else
    match invalidChars.find? (fun c => strContains name c) with
    | some c => some ("branch name contains invalid character: " ++ c)
    | none => none

/-- isGitHubOrigin applied to the result of `git remote get-url origin`:
`none` when the trimmed URL mentions github.com, an error message otherwise. -/
def isGitHubOrigin (originURLResult : Except String String) : Option String :=
  match originURLResult with
  | .error e => some ("failed to get origin URL: " ++ e)
  | .ok out =>
    let originURL := trimSpace out
    if strContains originURL "github.com" then none
    else some ("origin is not GitHub (found: " ++ originURL ++
      "). Only GitHub repositories are supported for PR creation")

/-- hasExistingPR applied to the result of `gh pr list --head <branch> --json number`:
a query failure degrades to false, otherwise any output other than "[]" means
a PR exists. -/
def hasExistingPR (res : Except String String) : Bool :=
  match res with
  | .error _ => false
  | .ok out =>
    let result := trimSpace out
    result ≠ "[]" && result ≠ ""

/-! ## The workflow state machine (src/main.go: model, Update, getSummary) -/

/-- Events delivered to Update: key presses and the async message types. -/
inductive Msg where
  | key (k : String)
  | commitMsg (s : String)
  | prContent (s : String)
  | branchCreated (s : String)
  | err (s : String)
  | commitMsgErr (s : String)
  | prContentErr (s : String)
deriving DecidableEq, Repr

/-- The tea.Cmd values Update can return: quit or one of the async calls. -/
inductive Cmd where
  | quit
  | createAndCheckoutBranch (name : String)
  | generateCommitMsg (diff commitType scope : String)
  | generatePRContent (branch : String)
deriving DecidableEq, Repr

/-- External calls Update performs synchronously, recorded in order. -/
inductive ECall where
  | gitAdd
  | getDiff
  | commit (message : String)
  | push
  | pushSetUpstream (branch : String)
  | checkOrigin
  | checkPR (branch : String)
  | countStaged
  | createPR (title body : String)
deriving DecidableEq, Repr

/-- The session record, mirroring the Go model struct field by field
(the unused `selected` map is omitted). -/
structure Model where
  choices : List String
  cursor : Nat
  commitTypes : List String
  typeSelected : Nat
  scopeInput : String
  phase : String
  diff : String
  needsAdd : Bool
  generatedMsg : String
  errorMsg : String
  currentBranch : String
  prTitle : String
  prBody : String
  isProtectedBranch : Bool
  branchInput : String
  filesCommitted : Nat
  didCommit : Bool
  didPush : Bool
  didCreatePR : Bool
  createdBranch : String
  apiErrorMsg : String
  prOnly : Bool
deriving DecidableEq, Repr

/-- Result of one Update step: the new model, the returned command, and the
trace of synchronous external calls performed during the step. -/
structure StepResult where
  model : Model
  cmd : Option Cmd
  calls : List ECall
deriving DecidableEq, Repr

/-- Results of the external collaborators consulted synchronously by Update.
`none` / `Except.ok` is success, `some e` / `Except.error e` carries the
error string of the failed subprocess. -/
structure Env where
  gitAddResult : Option String
  gitDiffResult : Except String String
  gitCommitResult : String → Option String
  gitPushResult : Option String
  gitPushSetUpstreamResult : String → Option String
  originURLResult : Except String String
  prListResult : String → Except String String
  stagedNamesResult : Except String String
  createPRResult : String → String → Option String

/-- initialModel: the Go constructor.  generateDefaultBranchName derives from
the clock and the git user name, so its value enters as the first argument. -/
def initialModel (defaultBranch diff : String) (needsAdd : Bool) (currentBranch : String)
    (isProtectedBranch prOnly : Bool) : Model :=
  let phase :=
    if prOnly then "pr_generating"
    else if isProtectedBranch then "branch_warning"
    else if needsAdd then "add"
    else "type"
  let choices :=
    if prOnly then ["Yes, add all changes", "No, exit"]
    else if isProtectedBranch then ["Yes, create a new branch", "No, continue on " ++ currentBranch]
    else ["Yes, add all changes", "No, exit"]
  { choices := choices
    cursor := 0
    commitTypes := ["feat", "fix", "docs", "style", "refactor", "perf", "test", "build", "ci", "chore"]
    typeSelected := 0
    scopeInput := ""
    phase := phase
    diff := diff
    needsAdd := needsAdd
    generatedMsg := ""
    errorMsg := ""
    currentBranch := currentBranch
    prTitle := ""
    prBody := ""
    isProtectedBranch := isProtectedBranch
    branchInput := defaultBranch
    filesCommitted := 0
    didCommit := false
    didPush := false
    didCreatePR := false
    createdBranch := ""
    apiErrorMsg := ""
    prOnly := prOnly }

/-- Init: PR-only sessions immediately issue the PR-content generation call. -/
def initCmd (m : Model) : Option Cmd :=
  if m.prOnly then some (Cmd.generatePRContent m.currentBranch) else none

/-- The six phases whose text field consumes ordinary characters; the source
excludes exactly these from the `q`-quits-and-navigation handling. -/
def inputPhases : List String :=
  ["branch_input", "scope", "edit", "manual_input", "pr_manual_title", "pr_manual_body"]

/-- The conjunction of inequality tests the source repeats before treating a
key as global/navigation input. -/
def isInputPhase (p : String) : Bool := decide (p ∈ inputPhases)

/-- The per-phase append chain the source repeats for `q`, `k`, `j`. -/
def appendInputChar (m : Model) (s : String) : Model :=
  if m.phase = "branch_input" then {m with branchInput := m.branchInput ++ s}
  else if m.phase = "scope" then {m with scopeInput := m.scopeInput ++ s}
  else if m.phase = "edit" ∨ m.phase = "manual_input" then {m with generatedMsg := m.generatedMsg ++ s}
  else if m.phase = "pr_manual_title" then {m with prTitle := m.prTitle ++ s}
  else if m.phase = "pr_manual_body" then {m with prBody := m.prBody ++ s}
  else m

/-- The cursor movement for "up"/"k" outside input phases. -/
def navUp (m : Model) : Model :=
  if m.phase = "branch_warning" ∧ m.cursor > 0 then {m with cursor := m.cursor - 1}
  else if m.phase = "add" ∧ m.cursor > 0 then {m with cursor := m.cursor - 1}
  else if m.phase = "type" ∧ m.typeSelected > 0 then {m with typeSelected := m.typeSelected - 1}
  else if (m.phase = "push_prompt" ∨ m.phase = "upstream_prompt" ∨ m.phase = "pr_prompt" ∨
      m.phase = "confirm" ∨ m.phase = "commit_error" ∨ m.phase = "pr_error") ∧ m.cursor > 0 then
    {m with cursor := m.cursor - 1}
  else m

/-- The cursor movement for "down"/"j" outside input phases. -/
def navDown (m : Model) : Model :=
  if m.phase = "branch_warning" ∧ m.cursor < m.choices.length - 1 then {m with cursor := m.cursor + 1}
  else if m.phase = "add" ∧ m.cursor < m.choices.length - 1 then {m with cursor := m.cursor + 1}
  else if m.phase = "type" ∧ m.typeSelected < m.commitTypes.length - 1 then
    {m with typeSelected := m.typeSelected + 1}
  else if (m.phase = "push_prompt" ∨ m.phase = "upstream_prompt" ∨ m.phase = "pr_prompt" ∨
      m.phase = "confirm" ∨ m.phase = "commit_error" ∨ m.phase = "pr_error") ∧
      m.cursor < m.choices.length - 1 then
    {m with cursor := m.cursor + 1}
  else m

/-- The "backspace" handler: drop the last character of the active field. -/
def backspaceInput (m : Model) : Model :=
  if m.phase = "branch_input" ∧ m.branchInput.length > 0 then
    {m with branchInput := m.branchInput.dropRight 1}
  else if m.phase = "scope" ∧ m.scopeInput.length > 0 then
    {m with scopeInput := m.scopeInput.dropRight 1}
  else if (m.phase = "edit" ∨ m.phase = "manual_input") ∧ m.generatedMsg.length > 0 then
    {m with generatedMsg := m.generatedMsg.dropRight 1}
  else if m.phase = "pr_manual_title" ∧ m.prTitle.length > 0 then
    {m with prTitle := m.prTitle.dropRight 1}
  else if m.phase = "pr_manual_body" ∧ m.prBody.length > 0 then
    {m with prBody := m.prBody.dropRight 1}
  else m

/-- The default key handler: single characters are appended in the input
phases (with "enter" translated to a newline in the multi-line fields,
a case the switch has already consumed when this branch is reached). -/
def updateDefaultKey (m : Model) (k : String) : Model :=
  if m.phase = "branch_input" ∧ k.length = 1 then {m with branchInput := m.branchInput ++ k}
  else if m.phase = "scope" ∧ k.length = 1 then {m with scopeInput := m.scopeInput ++ k}
  else if m.phase = "edit" ∨ m.phase = "manual_input" then
    if k = "enter" then {m with generatedMsg := m.generatedMsg ++ "\n"}
    else if k.length = 1 then {m with generatedMsg := m.generatedMsg ++ k}
    else m
  else if m.phase = "pr_manual_title" then
    if k.length = 1 then {m with prTitle := m.prTitle ++ k} else m
  else if m.phase = "pr_manual_body" then
    if k = "enter" then {m with prBody := m.prBody ++ "\n"}
    else if k.length = 1 then {m with prBody := m.prBody ++ k}
    else m
  else m

/-- The commit block shared verbatim by the confirm-accept and the
edit/manual-input submit branches: record the staged file count, commit,
and on success move to push_prompt. -/
def doCommit (env : Env) (m : Model) : StepResult :=
  let fc := countStagedFiles env.stagedNamesResult
  match env.gitCommitResult m.generatedMsg with
  | some e =>
    ⟨{m with filesCommitted := fc, errorMsg := "Error committing: " ++ e}, some Cmd.quit,
      [ECall.countStaged, ECall.commit m.generatedMsg]⟩
  | none =>
    ⟨{m with
        filesCommitted := fc
        didCommit := true
        phase := "push_prompt"
        cursor := 1
        choices := ["Yes, push", "No, skip"]}, none,
      [ECall.countStaged, ECall.commit m.generatedMsg]⟩

/-- The "enter" arm of the key switch: the per-phase submit/confirm logic. -/
def updateEnter (env : Env) (m : Model) : StepResult :=
  if m.phase = "branch_warning" then
    if m.cursor = 0 then ⟨{m with phase := "branch_input"}, none, []⟩
    else if m.needsAdd then
      ⟨{m with phase := "add", cursor := 0, choices := ["Yes, add all changes", "No, exit"]}, none, []⟩
    else ⟨{m with phase := "type"}, none, []⟩
  else if m.phase = "branch_input" then
    match validateBranchName m.branchInput with
    | some e => ⟨{m with errorMsg := e}, some Cmd.quit, []⟩
    | none =>
      ⟨{m with phase := "branch_creating"}, some (Cmd.createAndCheckoutBranch m.branchInput), []⟩
  else if m.phase = "add" then
    if m.cursor = 0 then
      match env.gitAddResult with
      | some e => ⟨{m with errorMsg := "Error adding files: " ++ e}, some Cmd.quit, [ECall.gitAdd]⟩
      | none =>
        match env.gitDiffResult with
        | .error e =>
          ⟨{m with errorMsg := "Error getting diff: " ++ e}, some Cmd.quit,
            [ECall.gitAdd, ECall.getDiff]⟩
        | .ok d => ⟨{m with diff := d, phase := "type"}, none, [ECall.gitAdd, ECall.getDiff]⟩
    else ⟨m, some Cmd.quit, []⟩
  else if m.phase = "type" then ⟨{m with phase := "scope"}, none, []⟩
  else if m.phase = "scope" then
    if isDiffTooLarge m.diff then ⟨{m with phase := "manual_input", generatedMsg := ""}, none, []⟩
    else
      ⟨{m with phase := "generating"},
        some (Cmd.generateCommitMsg m.diff (m.commitTypes.getD m.typeSelected "") m.scopeInput), []⟩
  else if m.phase = "confirm" then
    if m.cursor = 0 then doCommit env m
    else ⟨{m with phase := "edit"}, none, []⟩
  else if m.phase = "edit" ∨ m.phase = "manual_input" then doCommit env m
  else if m.phase = "push_prompt" then
    if m.cursor = 0 then
      match env.gitPushResult with
      | some errStr =>
        if strContains errStr "no upstream branch" ∨ strContains errStr "has no upstream branch" then
          ⟨{m with
              phase := "upstream_prompt"
              cursor := 0
              choices := ["Yes, set upstream and push", "No, skip"]}, none, [ECall.push]⟩
        else ⟨{m with errorMsg := "Error pushing: " ++ errStr}, some Cmd.quit, [ECall.push]⟩
      | none =>
        match isGitHubOrigin env.originURLResult with
        | some _ =>
          ⟨{m with didPush := true, phase := "exiting"}, some Cmd.quit,
            [ECall.push, ECall.checkOrigin]⟩
        | none =>
          if hasExistingPR (env.prListResult m.currentBranch) then
            ⟨{m with didPush := true, phase := "exiting"}, some Cmd.quit,
              [ECall.push, ECall.checkOrigin, ECall.checkPR m.currentBranch]⟩
          else
            ⟨{m with
                didPush := true
                phase := "pr_prompt"
                cursor := 1
                choices := ["Yes, create PR", "No, skip"]}, none,
              [ECall.push, ECall.checkOrigin, ECall.checkPR m.currentBranch]⟩
    else ⟨{m with phase := "exiting"}, some Cmd.quit, []⟩
  else if m.phase = "upstream_prompt" then
    if m.cursor = 0 then
      match env.gitPushSetUpstreamResult m.currentBranch with
      | some e =>
        ⟨{m with errorMsg := "Error setting upstream: " ++ e}, some Cmd.quit,
          [ECall.pushSetUpstream m.currentBranch]⟩
      | none =>
        if hasExistingPR (env.prListResult m.currentBranch) then
          ⟨{m with didPush := true, phase := "exiting"}, some Cmd.quit,
            [ECall.pushSetUpstream m.currentBranch, ECall.checkPR m.currentBranch]⟩
        else
          ⟨{m with
              didPush := true
              phase := "pr_prompt"
              cursor := 1
              choices := ["Yes, create PR", "No, skip"]}, none,
            [ECall.pushSetUpstream m.currentBranch, ECall.checkPR m.currentBranch]⟩
    else ⟨{m with phase := "exiting"}, some Cmd.quit, []⟩
  else if m.phase = "pr_prompt" then
    if m.cursor = 0 then
      ⟨{m with phase := "pr_generating"}, some (Cmd.generatePRContent m.currentBranch), []⟩
    else ⟨{m with phase := "exiting"}, some Cmd.quit, []⟩
  else if m.phase = "commit_error" then
    if m.cursor = 0 then
      ⟨{m with phase := "generating", apiErrorMsg := ""},
        some (Cmd.generateCommitMsg m.diff (m.commitTypes.getD m.typeSelected "") m.scopeInput), []⟩
    else ⟨{m with phase := "manual_input", generatedMsg := "", apiErrorMsg := ""}, none, []⟩
  else if m.phase = "pr_error" then
    if m.cursor = 0 then
      ⟨{m with phase := "pr_generating", apiErrorMsg := ""},
        some (Cmd.generatePRContent m.currentBranch), []⟩
    else if m.cursor = 1 then
      ⟨{m with phase := "pr_manual_title", prTitle := "", prBody := "", apiErrorMsg := ""}, none, []⟩
    else ⟨{m with phase := "exiting", apiErrorMsg := ""}, some Cmd.quit, []⟩
  else if m.phase = "pr_manual_title" then ⟨{m with phase := "pr_manual_body"}, none, []⟩
  else if m.phase = "pr_manual_body" then
    match env.createPRResult m.prTitle m.prBody with
    | some e =>
      ⟨{m with errorMsg := "Error creating PR: " ++ e}, some Cmd.quit,
        [ECall.createPR m.prTitle m.prBody]⟩
    | none =>
      ⟨{m with didCreatePR := true, phase := "pr_creating"}, some Cmd.quit,
        [ECall.createPR m.prTitle m.prBody]⟩
  else ⟨m, none, []⟩

/-- The tea.KeyMsg switch of Update. -/
def updateKey (env : Env) (m : Model) (k : String) : StepResult :=
  if k = "ctrl+c" then ⟨m, some Cmd.quit, []⟩
  else if k = "q" then
    if isInputPhase m.phase then ⟨appendInputChar m "q", none, []⟩
    else ⟨m, some Cmd.quit, []⟩
  else if k = "up" ∨ k = "k" then
    if isInputPhase m.phase then
      if k = "k" then ⟨appendInputChar m "k", none, []⟩ else ⟨m, none, []⟩
    else ⟨navUp m, none, []⟩
  else if k = "down" ∨ k = "j" then
    if isInputPhase m.phase then
      if k = "j" then ⟨appendInputChar m "j", none, []⟩ else ⟨m, none, []⟩
    else ⟨navDown m, none, []⟩
  else if k = "enter" then updateEnter env m
  else if k = "backspace" then ⟨backspaceInput m, none, []⟩
  else ⟨updateDefaultKey m k, none, []⟩

/-- Update: one step of the state machine, as a function of the incoming
message and the results the external collaborators would return. -/
def update (env : Env) (m : Model) (msg : Msg) : StepResult :=
  match msg with
  | .key k => updateKey env m k
  | .commitMsg s =>
    ⟨{m with
        generatedMsg := s
        phase := "confirm"
        cursor := 0
        choices := ["Yes, commit", "No, let me edit"]}, none, []⟩
  | .prContent s =>
    let parts := splitN2 s "\n---BODY---\n"
    let m1 :=
      match parts with
      | [t, b] => {m with prTitle := t, prBody := b}
      | _ => {m with prTitle := s, prBody := ""}
    match env.createPRResult m1.prTitle m1.prBody with
    | some e =>
      ⟨{m1 with errorMsg := "Error creating PR: " ++ e}, some Cmd.quit,
        [ECall.createPR m1.prTitle m1.prBody]⟩
    | none =>
      ⟨{m1 with didCreatePR := true, phase := "pr_creating"}, some Cmd.quit,
        [ECall.createPR m1.prTitle m1.prBody]⟩
  | .branchCreated s =>
    let m1 := {m with createdBranch := s, currentBranch := s}
    if m1.needsAdd then
      ⟨{m1 with phase := "add", cursor := 0, choices := ["Yes, add all changes", "No, exit"]},
        none, []⟩
    else ⟨{m1 with phase := "type"}, none, []⟩
  | .err s => ⟨{m with errorMsg := s}, some Cmd.quit, []⟩
  | .commitMsgErr s =>
    ⟨{m with
        apiErrorMsg := s
        phase := "commit_error"
        cursor := 0
        choices := ["Retry", "Enter commit message manually"]}, none, []⟩
  | .prContentErr s =>
    ⟨{m with
        apiErrorMsg := s
        phase := "pr_error"
        cursor := 0
        choices := ["Retry", "Enter PR details manually", "Skip PR creation"]}, none, []⟩

/-- getSummary: the end-of-session summary line. -/
def getSummary (m : Model) : String :=
  if m.prOnly ∧ m.didCreatePR then "Created PR on branch " ++ m.currentBranch
  else if ¬ m.didCommit then ""
  else
    let fileWord := if m.filesCommitted ≠ 1 then "files" else "file"
    let parts := ["Committed " ++ toString m.filesCommitted ++ " " ++ fileWord] ++
      [if m.createdBranch ≠ "" then "to new branch " ++ m.createdBranch
       else "to branch " ++ m.currentBranch] ++
      (if m.didPush then ["and pushed"] else []) ++
      (if m.didCreatePR then ["and created PR"] else [])
    String.intercalate " " parts

/-- The API-key guard at the top of generateWithAnthropic: with the key unset
the function returns the per-purpose retryable error message before any
network interaction; otherwise it proceeds to the HTTP request (out of
scope here, represented by `none`). -/
def anthropicKeyCheckMsg (apiKey : String) (isPR : Bool) : Option Msg :=
  if apiKey = "" then
    some (if isPR then Msg.prContentErr "ANTHROPIC_API_KEY environment variable not set"
      else Msg.commitMsgErr "ANTHROPIC_API_KEY environment variable not set")
  else none

/-! ## Session driver and the main entry point (exit codes) -/

/-- Run the bubbletea loop on a list of incoming messages: processing stops
when a step returns tea.Quit.  Returns the final model, whether the session
quit, and the concatenated trace of synchronous external calls. -/
def runSession (env : Env) : Model → List Msg → Model × Bool × List ECall
  | m, [] => (m, false, [])
  | m, e :: es =>
    let r := update env m e
    if r.cmd = some Cmd.quit then (r.model, true, r.calls)
    else
      let rest := runSession env r.model es
      (rest.1, rest.2.1, r.calls ++ rest.2.2)

/-- The inputs main consults before (and while) running the program.
`programRunOk` is whether tea.Program.Run itself returned without error
(a terminal-level failure, independent of the session contents). -/
structure MainEnv where
  env : Env
  loadConfigError : Option String
  prFlag : Bool
  initialDiffResult : Except String String
  getGitStatusResult : Except String Bool
  currentBranchResult : Except String String
  defaultBranchName : String
  programRunOk : Bool

/-- The tail of main common to the needsAdd and no-add paths: query the
branch, build the initial model, run the program.  The exit code only
reflects whether the program ran; the final session model is returned but
never inspected by main. -/
def runWorkflow (me : MainEnv) (diff : String) (needsAdd : Bool) (events : List Msg) :
    Nat × Option Model :=
  match me.currentBranchResult with
  | .error _ => (1, none)
  | .ok br =>
    let isProt := br == "main" || br == "master"
    let r := runSession me.env (initialModel me.defaultBranchName diff needsAdd br isProt false) events
    if me.programRunOk then (0, some r.1) else (1, none)

/-- main (after flag parsing, no subcommand): returns the process exit code
and, when the interactive program was run and completed, its final model. -/
def mainRun (me : MainEnv) (events : List Msg) : Nat × Option Model :=
  match me.loadConfigError with
  | some _ => (1, none)
  | none =>
    if me.prFlag then
      match me.currentBranchResult with
      | .error _ => (1, none)
      | .ok br =>
        match isGitHubOrigin me.env.originURLResult with
        | some _ => (1, none)
        | none =>
          if hasExistingPR (me.env.prListResult br) then (1, none)
          else
            let r := runSession me.env (initialModel me.defaultBranchName "" false br false true) events
            if me.programRunOk then (0, some r.1) else (1, none)
    else
      match me.initialDiffResult with
      | .error _ => (1, none)
      | .ok diff =>
        if diff = "" then
          match me.getGitStatusResult with
          | .error _ => (1, none)
          | .ok hasChanges =>
            if hasChanges = false then (0, none)
            else runWorkflow me diff true events
        else runWorkflow me diff false events

/-! ## Spec-side definitions used to state the claims -/

/-- The phases out of which the transition table of spec section 4 lists a
user submit/confirm ("enter") transition. -/
def enterPhases : List String :=
  ["branch_warning", "branch_input", "add", "type", "scope", "confirm", "edit",
   "manual_input", "push_prompt", "upstream_prompt", "pr_prompt", "commit_error",
   "pr_error", "pr_manual_title", "pr_manual_body"]

/-- The transition table of spec section 4, as a predicate on (phase, event):
does the table enumerate a transition out of this phase for this event?
Generation results are listed only for the phase whose call is in flight,
key transitions only for the submit key in the phases with a submit action. -/
def specTableEnumerates (p : String) (e : Msg) : Bool :=
  match e with
  | .key k => decide (k = "enter" ∧ p ∈ enterPhases)
  | .commitMsg _ => decide (p = "generating")
  | .commitMsgErr _ => decide (p = "generating")
  | .prContent _ => decide (p = "pr_generating")
  | .prContentErr _ => decide (p = "pr_generating")
  | .branchCreated _ => decide (p = "branch_creating")
  | .err _ => decide (p = "branch_creating")

/-- The number of lines of a text in the ordinary sense of the phrase of the spec
"line count": a trailing newline terminates the final line rather than
opening a new one, and the empty text has no lines. -/
def specLineCount (s : String) : Nat :=
  match s.data with
  | [] => 0
  | cs => if cs.getLast? = some '\n' then (splitNl cs).length - 1 else (splitNl cs).length

/-! ## Concrete fixtures for the counterexamples and witnesses -/

/-- A benign environment: every subprocess succeeds, the origin is GitHub,
one file is staged, and no PR exists for any branch. -/
def env0 : Env :=
  { gitAddResult := none
    gitDiffResult := .ok "diff --git a/file.txt b/file.txt\n+hello\n"
    gitCommitResult := fun _ => none
    gitPushResult := none
    gitPushSetUpstreamResult := fun _ => none
    originURLResult := .ok "git@github.com:acme/widgets.git"
    prListResult := fun _ => .ok "[]"
    stagedNamesResult := .ok "file.txt"
    createPRResult := fun _ _ => none }

/-- A session started with a small staged diff on an unprotected branch. -/
def baseModel : Model :=
  initialModel "dev/feature-2026-01-01" "diff --git a/file.txt b/file.txt\n+hello\n"
    false "dev" false false

/-- Characters alternating "x" and newline, n of each: an n-line text in which
every line is newline-terminated, as git diff output is. -/
def repChars : Nat → List Char
  | 0 => []
  | n + 1 => 'x' :: '\n' :: repChars n

/-- A newline-terminated diff of exactly 1000 lines. -/
def bigDiff : String := ⟨repChars 1000⟩

/-- A push_prompt state with the push option selected. -/
def mPush : Model :=
  {baseModel with
    phase := "push_prompt"
    cursor := 0
    didCommit := true
    choices := ["Yes, push", "No, skip"]}

/-- env0 with a GitLab origin: push succeeds but the forge check fails. -/
def envGitlab : Env := {env0 with originURLResult := Except.ok "git@gitlab.com:acme/widgets.git"}

/-- envGitlab, but the push fails with the missing-upstream condition. -/
def envGitlabNoUpstream : Env :=
  {envGitlab with
    gitPushResult := some "git push failed: fatal: The current branch dev has no upstream branch"}

/-- The session of the C8 scenario: small staged diff, branch main flagged
unprotected, default type feat. -/
def m8 : Model :=
  initialModel "dev/feature-2026-01-01" "diff --git a/file.txt b/file.txt\n+hello\n"
    false "main" false false

/-- The C8 event sequence: pick feat, type the scope auth, accept the
generated message, decline the push. -/
def ev8 : List Msg :=
  [Msg.key "enter", Msg.key "a", Msg.key "u", Msg.key "t", Msg.key "h", Msg.key "enter",
   Msg.commitMsg "feat(auth): add OAuth2 login", Msg.key "enter", Msg.key "enter"]

/-- The error message of the API-key guard. -/
def keyMissingText : String := "ANTHROPIC_API_KEY environment variable not set"

/-- A generation call in flight. -/
def mGen : Model := {baseModel with phase := "generating"}

/-- A stored configuration whose commit_model field is set. -/
def cfgFile : Config :=
  { provider := "anthropic"
    model := "claude-sonnet-4-5-20250929"
    commitModel := "claude-haiku-3-5-20241022"
    prModel := ""
    ollamaURL := "http://localhost:11434" }

/-- A CLI invocation passing only the general model flag -m. -/
def flagsGeneralOnly : Flags :=
  { modelFlag := ""
    mFlag := "claude-3-opus"
    commitModelFlag := ""
    prModelFlag := ""
    providerFlag := ""
    pFlag := ""
    ollamaURLFlag := "" }

/-- env0 with a failing git commit. -/
def envCommitFail : Env := {env0 with gitCommitResult := fun _ => some "disk full"}

/-- A main invocation in which every pre-session query succeeds, the program
runs, and the only failure is the git commit inside the session. -/
def me0 : MainEnv :=
  { env := envCommitFail
    loadConfigError := none
    prFlag := false
    initialDiffResult := Except.ok "diff --git a/file.txt b/file.txt\n+hello\n"
    getGitStatusResult := Except.ok true
    currentBranchResult := Except.ok "dev"
    defaultBranchName := "dev/feature-2026-01-01"
    programRunOk := true }

/-- Events driving me0 into the failing commit: pick the type, submit the
scope, receive a generated message, accept it. -/
def ev3 : List Msg :=
  [Msg.key "enter", Msg.key "enter", Msg.commitMsg "fix: adjust parser", Msg.key "enter"]

/-- The scope phase with the 1000-line newline-terminated diff captured. -/
def mBigScope : Model := {baseModel with phase := "scope", diff := bigDiff}

/-- The scope phase over the small staged diff. -/
def mScope : Model := {baseModel with phase := "scope"}

/-- The scope phase with a partially typed scope. -/
def mScopeAu : Model := {mScope with scopeInput := "au"}

/-- The branch_input phase with a well-formed name typed. -/
def mBranchInput : Model := {baseModel with phase := "branch_input", branchInput := "feature/login"}

/-- A main invocation that finds no staged diff and no changes at all. -/
def meNoChanges : MainEnv :=
  {me0 with initialDiffResult := Except.ok "", getGitStatusResult := Except.ok false}

/-- C8: with one staged file on branch main (entered as an unprotected
session input), accepting the generated message "feat(auth): add OAuth2
login" issues exactly one commit call carrying exactly that string, and
after declining the push the session ends with the summary
"Committed 1 file to branch main". -/
theorem c8_commit_scenario :
    (runSession env0 m8 ev8).2.1 = true ∧
    (runSession env0 m8 ev8).2.2 = [ECall.countStaged, ECall.commit "feat(auth): add OAuth2 login"] ∧
    getSummary (runSession env0 m8 ev8).1 = "Committed 1 file to branch main" := by decide

/-- C1: on a non-GitHub origin a directly successful push runs the forge
check and ends the session, but the upstream_prompt path after a successful
pushSetUpstream skips the forge check and offers the PR prompt: the two
paths do not branch identically, contradicting the claimed equivalence. -/
theorem c1_upstream_path_skips_origin_check :
    (update envGitlab mPush (Msg.key "enter")).model.phase = "exiting" ∧
    (update envGitlab mPush (Msg.key "enter")).cmd = some Cmd.quit ∧
    ECall.checkOrigin ∈ (update envGitlab mPush (Msg.key "enter")).calls ∧
    (update envGitlabNoUpstream mPush (Msg.key "enter")).model.phase = "upstream_prompt" ∧
    (update envGitlabNoUpstream
      (update envGitlabNoUpstream mPush (Msg.key "enter")).model (Msg.key "enter")).model.phase
      = "pr_prompt" ∧
    ECall.checkOrigin ∉ (update envGitlabNoUpstream
      (update envGitlabNoUpstream mPush (Msg.key "enter")).model (Msg.key "enter")).calls := by
  decide

/-- C2 counterexample: a generation attempt with the API key unset produces
the commitMsgErr message, and processing that message moves the session to
the retryable commit_error phase without quitting — the failure is not
fatal as claimed. -/
theorem c2_counterexample :
    anthropicKeyCheckMsg "" false = some (Msg.commitMsgErr keyMissingText) ∧
    (update env0 mGen (Msg.commitMsgErr keyMissingText)).model.phase = "commit_error" ∧
    (update env0 mGen (Msg.commitMsgErr keyMissingText)).cmd = none := by decide

/-- C2 amended: a generation attempt with the API key unset is treated as a
retryable generation failure: the guard returns the per-purpose error
message, which routes to commit_error (resp. pr_error) with retry and
manual-fallback choices, and the session does not terminate. -/
theorem c2_missing_key_is_retryable (env : Env) (m : Model) (isPR : Bool) :
    anthropicKeyCheckMsg "" isPR =
      some (if isPR then Msg.prContentErr keyMissingText else Msg.commitMsgErr keyMissingText) ∧
    (update env m (Msg.commitMsgErr keyMissingText)).model.phase = "commit_error" ∧
    (update env m (Msg.commitMsgErr keyMissingText)).model.apiErrorMsg = keyMissingText ∧
    (update env m (Msg.commitMsgErr keyMissingText)).cmd = none ∧
    (update env m (Msg.prContentErr keyMissingText)).model.phase = "pr_error" ∧
    (update env m (Msg.prContentErr keyMissingText)).cmd = none :=
  ⟨by cases isPR <;> rfl, rfl, rfl, rfl, rfl, rfl⟩

/-- C5 counterexample: with only the general model flag -m given and a
commit_model stored in the config file, commit generation uses the stored
commit_model, not the flag value. -/
theorem c5_counterexample :
    commitGenerationModel flagsGeneralOnly cfgFile = "claude-haiku-3-5-20241022" ∧
    commitGenerationModel flagsGeneralOnly cfgFile ≠ flagsGeneralOnly.mFlag := by decide

/-- C5 amended: the commit-generation model follows the precedence
commit-model flag, then stored commit_model, then -m, then --model, then
the stored general model; the general flag is only used when no
commit-specific model is set anywhere. -/
theorem c5_commit_model_precedence (fl : Flags) (cfg : Config) :
    commitGenerationModel fl cfg =
      if fl.commitModelFlag ≠ "" then fl.commitModelFlag
      else if cfg.commitModel ≠ "" then cfg.commitModel
      else if fl.mFlag ≠ "" then fl.mFlag
      else if fl.modelFlag ≠ "" then fl.modelFlag
      else cfg.model := by
  simp only [commitGenerationModel, getEffectiveConfig, Config.getCommitModel]
  split_ifs <;> simp_all

/-- C6 counterexample: the table enumerates no generation-success transition
out of the type phase, yet processing a commitMsg event there changes the
phase (to confirm) — the no-undefined-transitions claim fails for
asynchronous result events. -/
theorem c6_counterexample :
    specTableEnumerates baseModel.phase (Msg.commitMsg "feat: x") = false ∧
    (update env0 baseModel (Msg.commitMsg "feat: x")).model.phase ≠ baseModel.phase := by decide

/-- C4 counterexample: a newline-terminated diff of exactly 1000 lines (line
count not exceeding 1000) is nevertheless routed to manual_input when the
scope phase is submitted, because the source counts newline-split segments
(1001 here) rather than lines. -/
theorem c4_counterexample :
    specLineCount mBigScope.diff = 1000 ∧
    mBigScope.phase = "scope" ∧
    (update env0 mBigScope (Msg.key "enter")).model.phase = "manual_input" := by decide

/-- C3 counterexample: a fatal git-commit failure occurring after the
interactive session has started ends the session with the error recorded,
but the process still exits 0, not 1. -/
theorem c3_counterexample :
    (mainRun me0 ev3).1 = 0 ∧
    (mainRun me0 ev3).2.map Model.errorMsg = some "Error committing: disk full" ∧
    (mainRun me0 ev3).2.map Model.didCommit = some false := by decide

/-- When the separator does not occur, the first-occurrence split finds nothing. -/
theorem splitFirst_eq_none_of_not_contains (sep : List Char) (cs : List Char)
    (h : containsSubList sep cs = false) : splitFirst sep cs = none := by
  induction cs with
  | nil =>
    simp only [containsSubList] at h
    simp [splitFirst, h]
  | cons c cs ih =>
    simp only [containsSubList, Bool.or_eq_false_iff] at h
    simp [splitFirst, h.1, ih h.2]

/-- Go strings.SplitN(s, sep, 2) returns the whole string as a single part
when the separator does not occur. -/
theorem splitN2_of_not_contains (s sep : String) (h : strContains s sep = false) :
    splitN2 s sep = [s] := by
  unfold splitN2
  rw [splitFirst_eq_none_of_not_contains sep.data s.data h]

/-- C9: when a successful PR-content generation returns text without the
body separator, the whole text becomes the PR title, the body is empty,
and PR creation is still attempted with exactly that title and empty body. -/
theorem c9_pr_content_no_separator (env : Env) (m : Model) (s : String)
    (h : strContains s "\n---BODY---\n" = false) :
    (update env m (Msg.prContent s)).model.prTitle = s ∧
    (update env m (Msg.prContent s)).model.prBody = "" ∧
    (update env m (Msg.prContent s)).calls = [ECall.createPR s ""] := by
  have hs : splitN2 s "\n---BODY---\n" = [s] := splitN2_of_not_contains _ _ h
  simp only [update, hs]
  cases hc : env.createPRResult s "" <;> simp [hc]

/-- Witness for C9 at a concrete separator-free generation result. -/
theorem c9_pr_content_no_separator_witness :
    strContains "add login flow" "\n---BODY---\n" = false ∧
    (update env0 baseModel (Msg.prContent "add login flow")).model.prTitle = "add login flow" :=
  ⟨by decide, (c9_pr_content_no_separator env0 baseModel "add login flow" (by decide)).1⟩

/-- C7: submitting in branch_input issues the branch-create call and moves
to branch_creating exactly when validation accepts the name; a rejected
name ends the session as a fatal error carrying the validation message;
and validation accepts exactly the non-empty names that do not start with
a hyphen and contain no forbidden sequence. -/
theorem c7_branch_input_validation (env : Env) (m : Model) (h : m.phase = "branch_input") :
    (validateBranchName m.branchInput = none →
      update env m (Msg.key "enter") =
        ⟨{m with phase := "branch_creating"},
          some (Cmd.createAndCheckoutBranch m.branchInput), []⟩) ∧
    (∀ e, validateBranchName m.branchInput = some e →
      update env m (Msg.key "enter") = ⟨{m with errorMsg := e}, some Cmd.quit, []⟩) ∧
    (validateBranchName m.branchInput = none ↔
      (m.branchInput ≠ "" ∧ hasPrefixStr m.branchInput "-" = false ∧
        ∀ c ∈ invalidChars, strContains m.branchInput c = false)) := by
  have hk : update env m (Msg.key "enter") = updateEnter env m := rfl
  refine ⟨?_, ?_, ?_⟩
  · intro hv
    rw [hk]
    unfold updateEnter
    simp [h, hv]
  · intro e hv
    rw [hk]
    unfold updateEnter
    simp [h, hv]
  · unfold validateBranchName
    split_ifs with h1 h2
    · simp [h1]
    · simp [h1, h2]
    · cases hf : invalidChars.find? (fun c => strContains m.branchInput c) with
      | some c =>
        have hc : strContains m.branchInput c = true := by
          have := List.find?_some hf
          simpa using this
        have hmem : c ∈ invalidChars := List.mem_of_find?_eq_some hf
        simp only [hf]
        constructor
        · intro hcontra
          exact absurd hcontra (by simp)
        · rintro ⟨-, -, hall⟩
          exact absurd hc (by simp [hall c hmem])
      | none =>
        have hall := List.find?_eq_none.mp hf
        simp only [hf]
        constructor
        · intro _
          refine ⟨h1, by simpa using h2, fun c hcmem => ?_⟩
          simpa using hall c hcmem
        · intro _
          trivial

/-- Witness for C7 at a concrete valid branch name. -/
theorem c7_branch_input_validation_witness :
    mBranchInput.phase = "branch_input" ∧
    update env0 mBranchInput (Msg.key "enter") =
      ⟨{mBranchInput with phase := "branch_creating"},
        some (Cmd.createAndCheckoutBranch "feature/login"), []⟩ :=
  ⟨rfl, (c7_branch_input_validation env0 mBranchInput rfl).1 (by decide)⟩

/-- C10: ctrl+c quits in every phase; q quits in every phase except the six
text-input phases, where it is appended as a literal character to that
input field of that phase. -/
theorem c10_quit_key_behavior (env : Env) (m : Model) :
    ((update env m (Msg.key "ctrl+c")).cmd = some Cmd.quit ∧
      (update env m (Msg.key "ctrl+c")).model = m) ∧
    (m.phase ∉ inputPhases →
      (update env m (Msg.key "q")).cmd = some Cmd.quit ∧ (update env m (Msg.key "q")).model = m) ∧
    (m.phase = "branch_input" → (update env m (Msg.key "q")).cmd = none ∧
      (update env m (Msg.key "q")).model.branchInput = m.branchInput ++ "q") ∧
    (m.phase = "scope" → (update env m (Msg.key "q")).cmd = none ∧
      (update env m (Msg.key "q")).model.scopeInput = m.scopeInput ++ "q") ∧
    ((m.phase = "edit" ∨ m.phase = "manual_input") → (update env m (Msg.key "q")).cmd = none ∧
      (update env m (Msg.key "q")).model.generatedMsg = m.generatedMsg ++ "q") ∧
    (m.phase = "pr_manual_title" → (update env m (Msg.key "q")).cmd = none ∧
      (update env m (Msg.key "q")).model.prTitle = m.prTitle ++ "q") ∧
    (m.phase = "pr_manual_body" → (update env m (Msg.key "q")).cmd = none ∧
      (update env m (Msg.key "q")).model.prBody = m.prBody ++ "q") := by
  have hq : update env m (Msg.key "q") =
      (if isInputPhase m.phase then ⟨appendInputChar m "q", none, []⟩
       else ⟨m, some Cmd.quit, []⟩) := rfl
  refine ⟨⟨rfl, rfl⟩, ?_, ?_, ?_, ?_, ?_, ?_⟩
  · intro hni
    have hfalse : isInputPhase m.phase = false := by simp [isInputPhase, hni]
    rw [hq, hfalse]
    exact ⟨rfl, rfl⟩
  · intro hph
    have htrue : isInputPhase m.phase = true := by simp [isInputPhase, inputPhases, hph]
    rw [hq, htrue]
    simp [appendInputChar, hph]
  · intro hph
    have htrue : isInputPhase m.phase = true := by simp [isInputPhase, inputPhases, hph]
    rw [hq, htrue]
    simp [appendInputChar, hph]
  · intro hph
    have htrue : isInputPhase m.phase = true := by
      rcases hph with hph | hph <;> simp [isInputPhase, inputPhases, hph]
    rw [hq, htrue]
    rcases hph with hph | hph <;> simp [appendInputChar, hph]
  · intro hph
    have htrue : isInputPhase m.phase = true := by simp [isInputPhase, inputPhases, hph]
    rw [hq, htrue]
    simp [appendInputChar, hph]
  · intro hph
    have htrue : isInputPhase m.phase = true := by simp [isInputPhase, inputPhases, hph]
    rw [hq, htrue]
    simp [appendInputChar, hph]

/-- Witness for C10: in the scope input phase, q is appended, not a quit. -/
theorem c10_quit_key_behavior_witness :
    mScopeAu.phase = "scope" ∧
    (update env0 mScopeAu (Msg.key "q")).model.scopeInput = "au" ++ "q" :=
  ⟨rfl, ((c10_quit_key_behavior env0 mScopeAu).2.2.2.1 rfl).2⟩

/-- C4 amended: submitting the scope phase routes to manual_input exactly
when the newline-split segment count of the diff exceeds 1000 (the isDiffTooLarge test of the source); otherwise it issues the generation call and moves to
generating. -/
theorem c4_scope_threshold (env : Env) (m : Model) (h : m.phase = "scope") :
    ((update env m (Msg.key "enter")).model.phase = "manual_input" ↔ isDiffTooLarge m.diff = true) ∧
    (isDiffTooLarge m.diff = false →
      (update env m (Msg.key "enter")).model.phase = "generating" ∧
      (update env m (Msg.key "enter")).cmd =
        some (Cmd.generateCommitMsg m.diff (m.commitTypes.getD m.typeSelected "") m.scopeInput)) := by
  have hk : update env m (Msg.key "enter") = updateEnter env m := rfl
  rw [hk]
  unfold updateEnter
  by_cases hd : isDiffTooLarge m.diff <;> simp [h, hd]

/-- Witness for C4 at the small staged diff: generation is issued. -/
theorem c4_scope_threshold_witness :
    mScope.phase = "scope" ∧ isDiffTooLarge mScope.diff = false ∧
    (update env0 mScope (Msg.key "enter")).model.phase = "generating" :=
  ⟨rfl, by decide, ((c4_scope_threshold env0 mScope rfl).2 (by decide)).1⟩

/-- appendInputChar never changes the phase. -/
theorem appendInputChar_phase (m : Model) (s : String) : (appendInputChar m s).phase = m.phase := by
  unfold appendInputChar
  split_ifs <;> rfl

/-- navUp never changes the phase. -/
theorem navUp_phase (m : Model) : (navUp m).phase = m.phase := by
  unfold navUp
  split_ifs <;> rfl

/-- navDown never changes the phase. -/
theorem navDown_phase (m : Model) : (navDown m).phase = m.phase := by
  unfold navDown
  split_ifs <;> rfl

/-- backspace never changes the phase. -/
theorem backspaceInput_phase (m : Model) : (backspaceInput m).phase = m.phase := by
  unfold backspaceInput
  split_ifs <;> rfl

/-- The default key handler never changes the phase. -/
theorem updateDefaultKey_phase (m : Model) (k : String) : (updateDefaultKey m k).phase = m.phase := by
  unfold updateDefaultKey
  split_ifs <;> rfl

/-- The enter handler leaves the model untouched in phases with no
enumerated submit transition. -/
theorem updateEnter_not_listed (env : Env) (m : Model) (h : m.phase ∉ enterPhases) :
    updateEnter env m = ⟨m, none, []⟩ := by
  simp only [enterPhases, List.mem_cons, List.mem_singleton, not_or] at h
  obtain ⟨hw, hbi, hadd, hty, hsc, hcf, hed, hmi, hpp, hup, hprp, hce, hpe, hpt, hpb, -⟩ := h
  unfold updateEnter
  rw [if_neg hw, if_neg hbi, if_neg hadd, if_neg hty, if_neg hsc, if_neg hcf,
    if_neg (fun hor => hor.elim hed hmi), if_neg hpp, if_neg hup, if_neg hprp, if_neg hce,
    if_neg hpe, if_neg hpt, if_neg hpb]

/-- C6 amended: for every phase P and key event E for which the transition
table enumerates no transition out of P, processing E leaves the phase
unchanged; asynchronous call-result events, by contrast, are applied
whatever the current phase is (see the counterexample). -/
theorem c6_key_events_preserve_phase (env : Env) (m : Model) (k : String)
    (h : specTableEnumerates m.phase (Msg.key k) = false) :
    (update env m (Msg.key k)).model.phase = m.phase := by
  have h2 : ¬(k = "enter" ∧ m.phase ∈ enterPhases) := by
    intro hc
    rw [specTableEnumerates] at h
    simp [hc.1, hc.2] at h
  show (updateKey env m k).model.phase = m.phase
  unfold updateKey
  split_ifs
  all_goals
    first
      | rfl
      | exact appendInputChar_phase m _
      | exact navUp_phase m
      | exact navDown_phase m
      | exact backspaceInput_phase m
      | exact updateDefaultKey_phase m k
      | (rw [updateEnter_not_listed env m (fun hmem => h2 ⟨by assumption, hmem⟩)])

/-- Witness for C6 at a phase/key pair outside the table. -/
theorem c6_key_events_preserve_phase_witness :
    specTableEnumerates mGen.phase (Msg.key "enter") = false ∧
    (update env0 mGen (Msg.key "enter")).model.phase = mGen.phase :=
  ⟨by decide, c6_key_events_preserve_phase env0 mGen "enter" (by decide)⟩

/-- The process exit code is a function of the pre-session query results and
of whether the program itself ran: the session events never enter it. -/
theorem mainRun_fst_eq (me : MainEnv) (ev : List Msg) :
    (mainRun me ev).1 =
      (match me.loadConfigError with
       | some _ => 1
       | none =>
         if me.prFlag then
           match me.currentBranchResult with
           | .error _ => 1
           | .ok br =>
             match isGitHubOrigin me.env.originURLResult with
             | some _ => 1
             | none =>
               if hasExistingPR (me.env.prListResult br) then 1
               else if me.programRunOk then 0 else 1
         else
           match me.initialDiffResult with
           | .error _ => 1
           | .ok diff =>
             if diff = "" then
               match me.getGitStatusResult with
               | .error _ => 1
               | .ok hasChanges =>
                 if hasChanges = false then 0
                 else
                   match me.currentBranchResult with
                   | .error _ => 1
                   | .ok _ => if me.programRunOk then 0 else 1
             else
               match me.currentBranchResult with
               | .error _ => 1
               | .ok _ => if me.programRunOk then 0 else 1) := by
  unfold mainRun runWorkflow
  cases me.loadConfigError with
  | some e => rfl
  | none =>
    cases hp : me.prFlag with
    | true =>
      simp only [if_pos rfl]
      cases me.currentBranchResult with
      | error e => rfl
      | ok br =>
        cases ho : isGitHubOrigin me.env.originURLResult with
        | some e => simp [ho]
        | none =>
          cases hpr : hasExistingPR (me.env.prListResult br) with
          | true => simp [ho, hpr]
          | false =>
            cases hr : me.programRunOk with
            | true => simp [ho, hpr, hr]
            | false => simp [ho, hpr, hr]
    | false =>
      simp only [Bool.false_eq_true, if_false]
      cases me.initialDiffResult with
      | error e => rfl
      | ok diff =>
        by_cases hd : diff = ""
        · simp only [hd, if_pos rfl]
          cases me.getGitStatusResult with
          | error e => rfl
          | ok hasChanges =>
            cases hasChanges with
            | false => simp
            | true =>
              simp only [Bool.true_eq_false, if_false]
              cases me.currentBranchResult with
              | error e => rfl
              | ok br =>
                cases hr : me.programRunOk with
                | true => simp [hr]
                | false => simp [hr]
        · simp only [if_neg hd]
          cases me.currentBranchResult with
          | error e => rfl
          | ok br =>
            cases hr : me.programRunOk with
            | true => simp [hr]
            | false => simp [hr]

/-- C3 amended: the exit code never depends on what happened inside the
interactive session; it is 1 exactly for the pre-session fatal errors
(config load failure, failed git queries) and program-run failure, and 0
on normal completion or no changes — an in-session fatal git failure still
exits 0. -/
theorem c3_exit_codes (me : MainEnv) (ev ev2 : List Msg) :
    ((mainRun me ev).1 = (mainRun me ev2).1) ∧
    (me.loadConfigError ≠ none → (mainRun me ev).1 = 1) ∧
    (me.loadConfigError = none → me.prFlag = false → me.initialDiffResult = Except.ok "" →
      me.getGitStatusResult = Except.ok false → (mainRun me ev).1 = 0) ∧
    (me.loadConfigError = none → me.prFlag = false → ∀ d, me.initialDiffResult = Except.ok d →
      d ≠ "" → ∀ e, me.currentBranchResult = Except.error e → (mainRun me ev).1 = 1) ∧
    (me.loadConfigError = none → me.prFlag = false → ∀ d, me.initialDiffResult = Except.ok d →
      d ≠ "" → ∀ br, me.currentBranchResult = Except.ok br → me.programRunOk = true →
      (mainRun me ev).1 = 0) := by
  refine ⟨?_, ?_, ?_, ?_, ?_⟩
  · rw [mainRun_fst_eq me ev, mainRun_fst_eq me ev2]
  · intro h
    rw [mainRun_fst_eq]
    cases hl : me.loadConfigError with
    | some e => rfl
    | none => exact absurd hl h
  · intro hl hp hd hs
    rw [mainRun_fst_eq]
    simp [hl, hp, hd, hs]
  · intro hl hp d hd hdne e he
    rw [mainRun_fst_eq]
    simp [hl, hp, hd, hdne, he]
  · intro hl hp d hd hdne br hbr hro
    rw [mainRun_fst_eq]
    simp [hl, hp, hd, hdne, hbr, hro]

/-- Witness for C3 at a no-changes invocation: exit code 0. -/
theorem c3_exit_codes_witness :
    meNoChanges.loadConfigError = none ∧ (mainRun meNoChanges []).1 = 0 :=
  ⟨rfl, (c3_exit_codes meNoChanges [] []).2.2.1 rfl rfl rfl rfl⟩
